import Mathlib

/-!
Shallow embedding of `src/index.js` (GsmWebServer): an Express app holding an
in-memory list `sensorData` and a counter record `apiStats`, with one write
endpoint (`POST /api/data`), a query-string write endpoint (`GET /api/simple`)
and several read endpoints.

JavaScript numbers are idealized as exact rationals plus the special values
`NaN`, `Infinity` and `-Infinity`; floating-point rounding is not modelled
(no claim depends on it).  Timestamps (`Date.now()`, `toISOString()`,
`toLocaleString()`) are environment inputs, so each request record carries
the values the Date builtins would produce during that request.
-/

/-- A JavaScript number: either a finite value (idealized as an exact
rational) or one of the special values `NaN`, `Infinity`, `-Infinity`. -/
inductive JSNum where
  | nan : JSNum
  | posInf : JSNum
  | negInf : JSNum
  | num : ℚ → JSNum
deriving DecidableEq, Repr

/-- A JavaScript value that can sit under the `temp`/`hum` keys of a parsed
form or JSON body: a number or a string.  (Other JSON value shapes coerce
through `parseFloat` the same way as some string and are not needed by any
claim.) -/
inductive JSVal where
  | num : JSNum → JSVal
  | str : String → JSVal
deriving DecidableEq, Repr

/-- The JavaScript expression `x || 0` applied to a number `x`: `NaN` and `0`
are falsy, so they yield the literal `0`; every other number is truthy and is
returned unchanged.  (For `x = 0` the result `0` equals `x`, so only `NaN` is
actually redirected.) -/
def jsOrZero : JSNum → JSNum
  | JSNum.nan => JSNum.num 0
  | JSNum.posInf => JSNum.posInf
  | JSNum.negInf => JSNum.negInf
  | JSNum.num q => JSNum.num q

/-- Numeric value of a list of decimal digit characters. -/
def digitsVal (ds : List Char) : ℕ :=
  ds.foldl (fun a c => a * 10 + (c.toNat - 48)) 0

/-- Apply a decimal exponent suffix (`e`/`E`, optional sign, digits) to an
already-parsed mantissa, as `parseFloat` does; an ill-formed exponent is not
part of the longest valid prefix and is ignored. -/
def applyExp (q : ℚ) (cs : List Char) : ℚ :=
  match cs with
  | 'e' :: t => applyExpSigned q t
  | 'E' :: t => applyExpSigned q t
  | _ => q
where
  applyExpSigned (q : ℚ) (t : List Char) : ℚ :=
    match t with
    | '-' :: r =>
      let ds := r.takeWhile Char.isDigit
      if ds.isEmpty then q else q / 10 ^ digitsVal ds
    | '+' :: r =>
      let ds := r.takeWhile Char.isDigit
      if ds.isEmpty then q else q * 10 ^ digitsVal ds
    | r =>
      let ds := r.takeWhile Char.isDigit
      if ds.isEmpty then q else q * 10 ^ digitsVal ds

/-- Model of the JavaScript builtin `parseFloat` on a string: skip leading
whitespace, an optional sign, then the longest prefix that is `Infinity`, or
digits with an optional fraction and exponent; if no valid prefix exists the
result is `NaN`. -/
def parseFloat (s : String) : JSNum :=
  let cs := s.data.dropWhile (fun c => c == ' ' || c == '\t' || c == '\n' || c == '\r')
  match cs with
  | '-' :: t => parseFloatUnsigned true t
  | '+' :: t => parseFloatUnsigned false t
  | t => parseFloatUnsigned false t
where
  parseFloatUnsigned (neg : Bool) (cs : List Char) : JSNum :=
    if ['I','n','f','i','n','i','t','y'].isPrefixOf cs then
      if neg then JSNum.negInf else JSNum.posInf
    else
      let intPart := cs.takeWhile Char.isDigit
      let afterInt := cs.dropWhile Char.isDigit
      match afterInt with
      | '.' :: t =>
        let fracPart := t.takeWhile Char.isDigit
        if intPart.isEmpty && fracPart.isEmpty then JSNum.nan
        else
          let restAfterFrac := t.dropWhile Char.isDigit
          let mantissa : ℚ :=
            (digitsVal intPart : ℚ) + (digitsVal fracPart : ℚ) / 10 ^ fracPart.length
          let v := applyExp mantissa restAfterFrac
          JSNum.num (if neg then -v else v)
      | _ =>
        if intPart.isEmpty then JSNum.nan
        else
          let v := applyExp (digitsVal intPart : ℚ) afterInt
          JSNum.num (if neg then -v else v)

/-- `parseFloat` applied to a possibly-absent JavaScript value, as in
`parseFloat(req.body.temp)`: an absent property is `undefined` and
`parseFloat(undefined)` is `NaN`; a number argument is coerced to its string
rendering and parsed back, which returns the same number. -/
def parseFloatVal : Option JSVal → JSNum
  | none => JSNum.nan
  | some (JSVal.num n) => n
  | some (JSVal.str s) => parseFloat s

/-- `haystack.includes(needle)` on strings: some position of `haystack`
starts with `needle`. -/
def strContains (haystack needle : String) : Bool :=
  listContains haystack.data needle.data
where
  listContains : List Char → List Char → Bool
    | _, [] => true
    | [], _ :: _ => false
    | c :: cs, needle => needle.isPrefixOf (c :: cs) || listContains cs needle

/-- Character class `[\d.]` of the body regexes. -/
def isDigitOrDot (c : Char) : Bool := c.isDigit || c = '.'

/-- Model of `s.match(/key=([\d.]+)/)` restricted to its capture group: scan
for the first position where `key=` is followed by at least one character in
`[\d.]`, and capture the maximal such run; `none` when no position matches
(the regex backtracks by advancing the start position one character at a
time). -/
def matchKeyNum (key : List Char) : List Char → Option (List Char)
  | [] => none
  | c :: cs =>
    let pat := key ++ ['=']
    if pat.isPrefixOf (c :: cs) then
      let run := ((c :: cs).drop pat.length).takeWhile isDigitOrDot
      if run.isEmpty then matchKeyNum key cs else some run
    else matchKeyNum key cs

/-- Capture group of `bodyString.match(/temp=([\d.]+)/)` (resp. `hum=`),
as a string. -/
def keyNumMatch (key : String) (s : String) : Option String :=
  (matchKeyNum key.data s.data).map (fun cs => String.mk cs)

/-- An entry pushed by `POST /api/data` (`dataEntry` in the source). -/
structure PostEntry where
  id : ℕ
  timestamp : String
  temperature : JSNum
  humidity : JSNum
  receivedAt : String
  client : String
deriving DecidableEq, Repr

/-- An entry pushed by `GET /api/simple` (`entry` in the source); its
temperature/humidity are the received query strings, uncoerced. -/
structure SimpleEntry where
  timestamp : String
  temperature : String
  humidity : String
  method : String
deriving DecidableEq, Repr

/-- An element of `sensorData`: the two record shapes the two write paths
push. -/
inductive Entry where
  | post : PostEntry → Entry
  | simple : SimpleEntry → Entry
deriving DecidableEq, Repr

/-- The `apiStats` record. -/
structure ApiStats where
  totalRequests : ℕ
  successfulPosts : ℕ
  lastRequest : Option String
deriving DecidableEq, Repr

/-- The whole mutable state of the process: `sensorData` and `apiStats`. -/
structure ServerState where
  sensorData : List Entry
  apiStats : ApiStats
deriving DecidableEq, Repr

/-- `let sensorData = []; let apiStats = {totalRequests: 0,
successfulPosts: 0, lastRequest: null}`. -/
def initialState : ServerState :=
  { sensorData := [], apiStats := { totalRequests := 0, successfulPosts := 0, lastRequest := none } }

/-- The request body as the middleware hands it to the `POST /api/data`
handler: either a parsed object (form or JSON), of which only the `temp` and
`hum` properties are ever read, or a raw text body. -/
inductive ReqBody where
  | obj : Option JSVal → Option JSVal → ReqBody
  | text : String → ReqBody
deriving DecidableEq, Repr

/-- `req.body.temp`: property access; on a string body it is `undefined`. -/
def ReqBody.tempField : ReqBody → Option JSVal
  | ReqBody.obj t _ => t
  | ReqBody.text _ => none

/-- `req.body.hum`. -/
def ReqBody.humField : ReqBody → Option JSVal
  | ReqBody.obj _ h => h
  | ReqBody.text _ => none

/-- `String(req.body)`: a text body is already a string; an object body
stringifies to `[object Object]`. -/
def ReqBody.toJSString : ReqBody → String
  | ReqBody.text s => s
  | ReqBody.obj _ _ => "[object Object]"

/-- One `POST /api/data` request, together with the environment values the
handler samples (Date builtins, user agent).  `throws` is an oracle for the
only non-modelled behavior: an unexpected exception raised inside the `try`
block while the body is being inspected (e.g. a property access on an exotic
middleware-produced body), before any history mutation; `errMessage` is that
exception's `.message`. -/
structure PostRequest where
  contentType : Option String
  body : ReqBody
  userAgent : Option String
  nowMs : ℕ
  nowIso : String
  nowLocale : String
  throws : Bool
  errMessage : String
deriving DecidableEq, Repr

/-- `req.headers['content-type'] || ''`. -/
def PostRequest.contentTypeStr (r : PostRequest) : String :=
  match r.contentType with
  | none => ""
  | some s => s

/-- The three-way parse of lines 40-56: form and JSON branches read
`req.body.temp`/`req.body.hum` through `parseFloat(...) || 0`; the fallback
branch regex-matches the stringified body and applies `parseFloat` to the
capture (with `0` only when there is no match). -/
def parseTempHum (r : PostRequest) : JSNum × JSNum :=
  let ct := r.contentTypeStr
  if strContains ct "application/x-www-form-urlencoded" then
    (jsOrZero (parseFloatVal r.body.tempField), jsOrZero (parseFloatVal r.body.humField))
  else if strContains ct "application/json" then
    (jsOrZero (parseFloatVal r.body.tempField), jsOrZero (parseFloatVal r.body.humField))
  else
    let bodyString := r.body.toJSString
    let tempMatch := keyNumMatch "temp" bodyString
    let humMatch := keyNumMatch "hum" bodyString
    ((match tempMatch with | some m => parseFloat m | none => JSNum.num 0),
     (match humMatch with | some m => parseFloat m | none => JSNum.num 0))

/-- The `dataEntry` object of lines 59-66. -/
def mkPostEntry (r : PostRequest) : PostEntry :=
  { id := r.nowMs
    timestamp := r.nowIso
    temperature := (parseTempHum r).1
    humidity := (parseTempHum r).2
    receivedAt := r.nowLocale
    client := match r.userAgent with | none => "Unknown" | some ua => ua }

/-- Lines 68-72: `sensorData.unshift(dataEntry); if (sensorData.length >
100) sensorData = sensorData.slice(0, 100)` as one function on the
history. -/
def pushCapped (e : Entry) (h : List Entry) : List Entry :=
  let sd1 := e :: h
  if sd1.length > 100 then sd1.take 100 else sd1

/-- Response of `POST /api/data`: the 200 success shape or the 400 failure
shape of the `catch` block. -/
inductive PostResponse where
  | ok : String → PostEntry → ℕ → String → PostResponse
  | err : String → String → PostResponse
deriving DecidableEq, Repr

/-- Whether the response is the success shape. -/
def PostResponse.isOk : PostResponse → Bool
  | PostResponse.ok _ _ _ _ => true
  | PostResponse.err _ _ => false

/-- The `POST /api/data` handler (lines 26-95): bump `totalRequests` and
`lastRequest` first; then, unless the try block throws, parse, build
`dataEntry`, `unshift` it, truncate to 100 when over, bump
`successfulPosts`, and answer with the success shape; on a throw, answer
with the failure shape and leave history and `successfulPosts` alone. -/
def postData (r : PostRequest) (s : ServerState) : ServerState × PostResponse :=
  let stats1 : ApiStats :=
    { s.apiStats with
        totalRequests := s.apiStats.totalRequests + 1
        lastRequest := some r.nowIso }
  if r.throws then
    ({ s with apiStats := stats1 },
     PostResponse.err r.errMessage "Send data as: temp=25.5&hum=60.0")
  else
    let dataEntry := mkPostEntry r
    let sd2 := pushCapped (Entry.post dataEntry) s.sensorData
    ({ sensorData := sd2
       apiStats := { stats1 with successfulPosts := stats1.successfulPosts + 1 } },
     PostResponse.ok "Data received successfully" dataEntry sd2.length "Node.js API on Render")

/-- One `GET /api/simple` request: the two query parameters (absent when not
supplied) and the ISO timestamp the handler samples. -/
structure SimpleRequest where
  temp : Option String
  hum : Option String
  nowIso : String
deriving DecidableEq, Repr

/-- `req.query.temp || '0'`: `undefined` and the empty string are falsy. -/
def queryOrZero : Option String → String
  | none => "0"
  | some s => if s = "" then "0" else s

/-- The `entry` object of lines 130-135. -/
def mkSimpleEntry (r : SimpleRequest) : SimpleEntry :=
  { timestamp := r.nowIso
    temperature := queryOrZero r.temp
    humidity := queryOrZero r.hum
    method := "GET" }

/-- Response of `GET /api/simple`. -/
structure SimpleResponse where
  received : Bool
  data : SimpleEntry
deriving DecidableEq, Repr

/-- The `GET /api/simple` handler (lines 126-143): build the entry, `unshift`
it — with no capacity check and no counter update — and acknowledge. -/
def apiSimple (r : SimpleRequest) (s : ServerState) : ServerState × SimpleResponse :=
  let entry := mkSimpleEntry r
  ({ s with sensorData := Entry.simple entry :: s.sensorData },
   { received := true, data := entry })

/-- Response of `GET /api/data`. -/
structure GetDataResponse where
  success : Bool
  count : ℕ
  data : List Entry
  stats : ApiStats
deriving DecidableEq, Repr

/-- The `GET /api/data` handler (lines 98-105): a pure read. -/
def getData (s : ServerState) : ServerState × GetDataResponse :=
  (s, { success := true, count := s.sensorData.length, data := s.sensorData, stats := s.apiStats })

/-- The `GET /api/test` handler (lines 108-111): a fixed plain-text body. -/
def apiTest (s : ServerState) : ServerState × String :=
  (s, "OK - Node.js API is working!")

/-- Environment values `GET /api/health` samples from the process. -/
structure HealthEnv where
  nodeVersion : String
  uptime : ℕ
  memory : ℕ
deriving DecidableEq, Repr

/-- Response of `GET /api/health`. -/
structure HealthResponse where
  status : String
  server : String
  runtime : String
  uptime : ℕ
  memory : ℕ
  requests : ApiStats
deriving DecidableEq, Repr

/-- The `GET /api/health` handler (lines 114-123): a pure read of `apiStats`
plus process introspection values. -/
def apiHealth (env : HealthEnv) (s : ServerState) : ServerState × HealthResponse :=
  (s, { status := "online", server := "Arduino Sensor API",
        runtime := "Node.js " ++ env.nodeVersion,
        uptime := env.uptime, memory := env.memory, requests := s.apiStats })

/-- The entries the dashboard template iterates over:
`sensorData.slice(0, 10)` on line 168.  (The per-entry card string uses the
`toLocaleString` Date builtin, which is not modelled; one card is rendered
per element of this list, so which entries appear is fully captured here.) -/
def dashboardEntries (s : ServerState) : List Entry :=
  s.sensorData.take 10

/-- The `GET /dashboard` handler (lines 146-182) as a state transformer: a
pure read rendering `dashboardEntries` and the total count. -/
def dashboard (s : ServerState) : ServerState × (ℕ × List Entry) :=
  (s, (s.sensorData.length, dashboardEntries s))

/-- The `GET /` handler (lines 185-198): a fixed directory object, modelled
by its `note` string; a pure read. -/
def rootEndpoint (s : ServerState) : ServerState × String :=
  (s, "Send sensor data as: temp=25.5&hum=60.0")

/-- Folding a sequence of `POST /api/data` requests through the handler,
oldest request first. -/
def postManyState (reqs : List PostRequest) (s : ServerState) : ServerState :=
  reqs.foldl (fun st r => (postData r st).1) s

/-!  Helper lemmas about the capped push. -/

theorem pushCapped_eq_take (e : Entry) (h : List Entry) :
    pushCapped e h = (e :: h).take 100 := by
  unfold pushCapped
  by_cases hlen : (e :: h).length > 100
  · simp [hlen]
  · simp only [hlen, if_false]
    exact (List.take_of_length_le (Nat.le_of_not_lt hlen)).symm

theorem length_pushCapped_le (e : Entry) (h : List Entry) :
    (pushCapped e h).length ≤ 100 := by
  rw [pushCapped_eq_take, List.length_take]
  exact min_le_left _ _

theorem head?_pushCapped (e : Entry) (h : List Entry) :
    (pushCapped e h).head? = some e := by
  rw [pushCapped_eq_take]
  have h100 : (100 : ℕ) = 99 + 1 := rfl
  rw [h100, List.take_succ_cons, List.head?_cons]

theorem take_append_take {α : Type} (a b : List α) (n : ℕ) :
    (a ++ b.take n).take n = (a ++ b).take n := by
  rw [List.take_append_eq_append_take, List.take_append_eq_append_take,
    List.take_take, min_eq_left (Nat.sub_le n a.length)]

theorem postData_state_of_not_throws (r : PostRequest) (s : ServerState)
    (hok : r.throws = false) :
    (postData r s).1.sensorData = pushCapped (Entry.post (mkPostEntry r)) s.sensorData := by
  simp [postData, hok]

theorem postData_state_of_throws (r : PostRequest) (s : ServerState)
    (hth : r.throws = true) :
    (postData r s).1.sensorData = s.sensorData := by
  simp [postData, hth]

theorem postData_length_le (r : PostRequest) (s : ServerState)
    (hlen : s.sensorData.length ≤ 100) :
    (postData r s).1.sensorData.length ≤ 100 := by
  cases hr : r.throws
  · rw [postData_state_of_not_throws r s hr]
    exact length_pushCapped_le _ _
  · rw [postData_state_of_throws r s hr]
    exact hlen

theorem postManyState_cons (r : PostRequest) (reqs : List PostRequest) (s : ServerState) :
    postManyState (r :: reqs) s = postManyState reqs (postData r s).1 := by
  simp [postManyState]

theorem postManyState_length_le (reqs : List PostRequest) (s : ServerState)
    (hlen : s.sensorData.length ≤ 100) :
    (postManyState reqs s).sensorData.length ≤ 100 := by
  induction reqs generalizing s with
  | nil => exact hlen
  | cons r rs ih =>
    rw [postManyState_cons]
    exact ih _ (postData_length_le r s hlen)

theorem postManyState_sensorData (reqs : List PostRequest) (s : ServerState)
    (hlen : s.sensorData.length ≤ 100)
    (hok : ∀ r ∈ reqs, r.throws = false) :
    (postManyState reqs s).sensorData
      = ((reqs.map (fun r => Entry.post (mkPostEntry r))).reverse ++ s.sensorData).take 100 := by
  induction reqs generalizing s with
  | nil =>
    simp only [postManyState, List.foldl_nil, List.map_nil, List.reverse_nil, List.nil_append]
    exact (List.take_of_length_le hlen).symm
  | cons r rs ih =>
    rw [postManyState_cons]
    have hr : r.throws = false := hok r (List.mem_cons_self r rs)
    have hrec := ih (postData r s).1 (postData_length_le r s hlen)
      (fun q hq => hok q (List.mem_cons_of_mem r hq))
    rw [hrec, postData_state_of_not_throws r s hr, pushCapped_eq_take]
    rw [List.map_cons, List.reverse_cons, List.append_assoc]
    rw [List.singleton_append]
    exact take_append_take _ _ 100

/-!  Sample concrete inputs used to instantiate the claim theorems. -/

/-- A non-throwing form-encoded request with numeric fields. -/
def sampleFormReq : PostRequest :=
  { contentType := some "application/x-www-form-urlencoded"
    body := ReqBody.obj (some (JSVal.str "25")) (some (JSVal.str "60"))
    userAgent := some "Arduino"
    nowMs := 1700000000000
    nowIso := "2023-11-14T22:13:20.000Z"
    nowLocale := "11/14/2023, 10:13:20 PM"
    throws := false
    errMessage := "" }

/-- A JSON request whose body carries neither `temp` nor `hum`. -/
def sampleJsonEmptyReq : PostRequest :=
  { contentType := some "application/json", body := ReqBody.obj none none,
    userAgent := none, nowMs := 3, nowIso := "T3", nowLocale := "L3",
    throws := false, errMessage := "" }

/-- A request on which the try block raises an unexpected exception. -/
def sampleThrowReq : PostRequest :=
  { contentType := some "application/json", body := ReqBody.obj none none,
    userAgent := none, nowMs := 5, nowIso := "T5", nowLocale := "L5",
    throws := true, errMessage := "boom" }

/-- A query-string request `?temp=12&hum=34`. -/
def sampleSimpleReq : SimpleRequest :=
  { temp := some "12", hum := some "34", nowIso := "T" }

/-- A state whose history already holds exactly 100 entries. -/
def fullState : ServerState :=
  { sensorData := List.replicate 100
      (Entry.simple { timestamp := "T", temperature := "0", humidity := "0", method := "GET" })
    apiStats := { totalRequests := 100, successfulPosts := 0, lastRequest := some "T" } }

/-- C5: every `POST /api/data` bumps `totalRequests` by exactly one and
refreshes `lastRequest` whether or not the try block throws, and
`successfulPosts` is bumped exactly once on the non-exceptional path and
left unchanged on the exception path. -/
theorem claim_C5 (r : PostRequest) (s : ServerState) :
    (postData r s).1.apiStats.totalRequests = s.apiStats.totalRequests + 1
    ∧ (postData r s).1.apiStats.lastRequest = some r.nowIso
    ∧ (r.throws = false →
        (postData r s).1.apiStats.successfulPosts = s.apiStats.successfulPosts + 1)
    ∧ (r.throws = true →
        (postData r s).1.apiStats.successfulPosts = s.apiStats.successfulPosts) := by
  cases hr : r.throws <;> simp [postData, hr]

/-- Instance of `claim_C5` at a concrete request and the initial state. -/
theorem claim_C5_witness :
    (postData sampleFormReq initialState).1.apiStats.totalRequests
        = initialState.apiStats.totalRequests + 1
    ∧ (postData sampleFormReq initialState).1.apiStats.lastRequest
        = some sampleFormReq.nowIso
    ∧ (sampleFormReq.throws = false →
        (postData sampleFormReq initialState).1.apiStats.successfulPosts
          = initialState.apiStats.successfulPosts + 1)
    ∧ (sampleFormReq.throws = true →
        (postData sampleFormReq initialState).1.apiStats.successfulPosts
          = initialState.apiStats.successfulPosts) :=
  claim_C5 sampleFormReq initialState

/-- C10: on the caught-exception path of `POST /api/data` the response is the
failure shape and the history and `successfulPosts` are untouched, while
`totalRequests` and `lastRequest` are still updated. -/
theorem claim_C10 (r : PostRequest) (s : ServerState) (hth : r.throws = true) :
    (postData r s).2 = PostResponse.err r.errMessage "Send data as: temp=25.5&hum=60.0"
    ∧ (postData r s).1.sensorData = s.sensorData
    ∧ (postData r s).1.apiStats.successfulPosts = s.apiStats.successfulPosts
    ∧ (postData r s).1.apiStats.totalRequests = s.apiStats.totalRequests + 1
    ∧ (postData r s).1.apiStats.lastRequest = some r.nowIso := by
  simp [postData, hth]

/-- Instance of `claim_C10` at a concrete throwing request. -/
theorem claim_C10_witness :
    (postData sampleThrowReq initialState).2
        = PostResponse.err sampleThrowReq.errMessage "Send data as: temp=25.5&hum=60.0"
    ∧ (postData sampleThrowReq initialState).1.sensorData = initialState.sensorData
    ∧ (postData sampleThrowReq initialState).1.apiStats.successfulPosts
        = initialState.apiStats.successfulPosts
    ∧ (postData sampleThrowReq initialState).1.apiStats.totalRequests
        = initialState.apiStats.totalRequests + 1
    ∧ (postData sampleThrowReq initialState).1.apiStats.lastRequest
        = some sampleThrowReq.nowIso :=
  claim_C10 sampleThrowReq initialState rfl

/-- C6: `GET /api/simple` stores the received query strings uncoerced (with
`"0"` for an absent parameter), tags the entry with method `GET`, inserts it
at the front of the history, and performs no capacity enforcement, so the
history grows by one even past 100. -/
theorem claim_C6 (q : SimpleRequest) (s : ServerState) :
    (apiSimple q s).1.sensorData = Entry.simple (mkSimpleEntry q) :: s.sensorData
    ∧ (mkSimpleEntry q).method = "GET"
    ∧ (q.temp = some "12" → (mkSimpleEntry q).temperature = "12")
    ∧ (q.hum = some "34" → (mkSimpleEntry q).humidity = "34")
    ∧ (q.temp = none → (mkSimpleEntry q).temperature = "0")
    ∧ (q.hum = none → (mkSimpleEntry q).humidity = "0")
    ∧ (apiSimple q s).1.sensorData.length = s.sensorData.length + 1
    ∧ (100 ≤ s.sensorData.length → 100 < (apiSimple q s).1.sensorData.length) := by
  refine ⟨rfl, rfl, ?_, ?_, ?_, ?_, rfl, ?_⟩
  · intro h; simp [mkSimpleEntry, queryOrZero, h]
  · intro h; simp [mkSimpleEntry, queryOrZero, h]
  · intro h; simp [mkSimpleEntry, queryOrZero, h]
  · intro h; simp [mkSimpleEntry, queryOrZero, h]
  · intro h
    have : (apiSimple q s).1.sensorData.length = s.sensorData.length + 1 := rfl
    omega

/-- Instance of `claim_C6` at `?temp=12&hum=34` and a history already holding
100 entries. -/
theorem claim_C6_witness :
    (apiSimple sampleSimpleReq fullState).1.sensorData
        = Entry.simple (mkSimpleEntry sampleSimpleReq) :: fullState.sensorData
    ∧ (mkSimpleEntry sampleSimpleReq).method = "GET"
    ∧ (sampleSimpleReq.temp = some "12" → (mkSimpleEntry sampleSimpleReq).temperature = "12")
    ∧ (sampleSimpleReq.hum = some "34" → (mkSimpleEntry sampleSimpleReq).humidity = "34")
    ∧ (sampleSimpleReq.temp = none → (mkSimpleEntry sampleSimpleReq).temperature = "0")
    ∧ (sampleSimpleReq.hum = none → (mkSimpleEntry sampleSimpleReq).humidity = "0")
    ∧ (apiSimple sampleSimpleReq fullState).1.sensorData.length
        = fullState.sensorData.length + 1
    ∧ (100 ≤ fullState.sensorData.length →
        100 < (apiSimple sampleSimpleReq fullState).1.sensorData.length) :=
  claim_C6 sampleSimpleReq fullState

/-- C7: the dashboard renders exactly the `min 10 length` most-recent history
entries — the first ten of the newest-first history when it holds at least
ten, and the whole history otherwise. -/
theorem claim_C7 (s : ServerState) :
    (dashboard s).2.2 = s.sensorData.take 10
    ∧ (dashboard s).2.2.length = min 10 s.sensorData.length
    ∧ (10 ≤ s.sensorData.length → (dashboard s).2.2.length = 10)
    ∧ (s.sensorData.length ≤ 10 → (dashboard s).2.2 = s.sensorData) := by
  refine ⟨rfl, ?_, ?_, ?_⟩
  · simp [dashboard, dashboardEntries, List.length_take]
  · intro h
    simp [dashboard, dashboardEntries, List.length_take]
    omega
  · intro h
    exact List.take_of_length_le h

/-- Instance of `claim_C7` at a history of 100 entries. -/
theorem claim_C7_witness :
    (dashboard fullState).2.2 = fullState.sensorData.take 10
    ∧ (dashboard fullState).2.2.length = min 10 fullState.sensorData.length
    ∧ (10 ≤ fullState.sensorData.length → (dashboard fullState).2.2.length = 10)
    ∧ (fullState.sensorData.length ≤ 10 → (dashboard fullState).2.2 = fullState.sensorData) :=
  claim_C7 fullState

/-- C8: `GET /api/test` answers the fixed plain-text literal whatever the
state. -/
theorem claim_C8 (s : ServerState) :
    (apiTest s).2 = "OK - Node.js API is working!" := rfl

/-- C9: the five read-only endpoints return the pre-state unchanged: history,
`totalRequests`, `successfulPosts` and `lastRequest` are all preserved. -/
theorem claim_C9 (s : ServerState) (env : HealthEnv) :
    (getData s).1 = s ∧ (apiTest s).1 = s ∧ (apiHealth env s).1 = s
    ∧ (dashboard s).1 = s ∧ (rootEndpoint s).1 = s :=
  ⟨rfl, rfl, rfl, rfl, rfl⟩

/-- C4: in the form and JSON branches, when `parseFloat` of the `temp` and
`hum` body values yields finite numbers, the stored Reading carries exactly
those numbers and sits at the front of the history. -/
theorem claim_C4 (r : PostRequest) (s : ServerState) (hok : r.throws = false)
    (hct : strContains r.contentTypeStr "application/x-www-form-urlencoded" = true
         ∨ strContains r.contentTypeStr "application/json" = true)
    (v w : ℚ)
    (ht : parseFloatVal r.body.tempField = JSNum.num v)
    (hh : parseFloatVal r.body.humField = JSNum.num w) :
    (mkPostEntry r).temperature = JSNum.num v
    ∧ (mkPostEntry r).humidity = JSNum.num w
    ∧ (postData r s).1.sensorData.head? = some (Entry.post (mkPostEntry r)) := by
  have hparse : parseTempHum r = (JSNum.num v, JSNum.num w) := by
    by_cases hform : strContains r.contentTypeStr "application/x-www-form-urlencoded" = true
    · simp [parseTempHum, hform, ht, hh, jsOrZero]
    · have hjson : strContains r.contentTypeStr "application/json" = true := by
        rcases hct with h | h
        · exact absurd h hform
        · exact h
      simp [parseTempHum, hform, hjson, ht, hh, jsOrZero]
  refine ⟨?_, ?_, ?_⟩
  · simp [mkPostEntry, hparse]
  · simp [mkPostEntry, hparse]
  · rw [postData_state_of_not_throws r s hok]
    exact head?_pushCapped _ _

/-- Instance of `claim_C4`: form body `temp=25&hum=60` stores 25 and 60 at
the front of the history. -/
theorem claim_C4_witness :
    (mkPostEntry sampleFormReq).temperature = JSNum.num 25
    ∧ (mkPostEntry sampleFormReq).humidity = JSNum.num 60
    ∧ (postData sampleFormReq initialState).1.sensorData.head?
        = some (Entry.post (mkPostEntry sampleFormReq)) :=
  claim_C4 sampleFormReq initialState rfl (Or.inl (by decide)) 25 60
    (by decide) (by decide)

/-- C3 fails as stated: the raw-text body `temp=.` is matched by the regex,
`parseFloat(".")` is `NaN`, and the stored Reading's temperature is `NaN`,
not `0`, although the endpoint still answers with the success shape. -/
theorem claim_C3_counterexample :
    (postData { contentType := some "text/plain", body := ReqBody.text "temp=.",
                userAgent := none, nowMs := 0, nowIso := "T", nowLocale := "L",
                throws := false, errMessage := "" } initialState).1.sensorData
        = [Entry.post { id := 0, timestamp := "T", temperature := JSNum.nan,
                        humidity := JSNum.num 0, receivedAt := "L", client := "Unknown" }]
    ∧ (postData { contentType := some "text/plain", body := ReqBody.text "temp=.",
                  userAgent := none, nowMs := 0, nowIso := "T", nowLocale := "L",
                  throws := false, errMessage := "" } initialState).2.isOk = true
    ∧ JSNum.nan ≠ JSNum.num 0 := by
  refine ⟨by decide, by decide, by decide⟩

/-- C3 (amended): a `temp`/`hum` field that is absent or fails to parse is
stored as `0` in the form and JSON encodings, and in the raw-text encoding
whenever the regex finds no numeric match; a raw-text field whose regex
match itself parses to `NaN` (a run of dots) is stored as `NaN` instead.
In every non-exception case the endpoint answers with the success shape and
the built Reading is stored at the front. -/
theorem claim_C3_amended (r : PostRequest) (s : ServerState) (hok : r.throws = false) :
    (postData r s).2.isOk = true
    ∧ ((strContains r.contentTypeStr "application/x-www-form-urlencoded" = true
         ∨ strContains r.contentTypeStr "application/json" = true) →
        ((parseFloatVal r.body.tempField = JSNum.nan →
            (mkPostEntry r).temperature = JSNum.num 0)
         ∧ (parseFloatVal r.body.humField = JSNum.nan →
            (mkPostEntry r).humidity = JSNum.num 0)))
    ∧ (strContains r.contentTypeStr "application/x-www-form-urlencoded" = false →
       strContains r.contentTypeStr "application/json" = false →
        ((keyNumMatch "temp" r.body.toJSString = none →
            (mkPostEntry r).temperature = JSNum.num 0)
         ∧ (keyNumMatch "hum" r.body.toJSString = none →
            (mkPostEntry r).humidity = JSNum.num 0)))
    ∧ (postData r s).1.sensorData.head? = some (Entry.post (mkPostEntry r)) := by
  refine ⟨by simp [postData, hok, PostResponse.isOk], ?_, ?_, ?_⟩
  · intro hct
    by_cases hform : strContains r.contentTypeStr "application/x-www-form-urlencoded" = true
    · exact ⟨fun ht => by simp [mkPostEntry, parseTempHum, hform, ht, jsOrZero],
        fun hh => by simp [mkPostEntry, parseTempHum, hform, hh, jsOrZero]⟩
    · have hjson : strContains r.contentTypeStr "application/json" = true := by
        rcases hct with h | h
        · exact absurd h hform
        · exact h
      exact ⟨fun ht => by simp [mkPostEntry, parseTempHum, hform, hjson, ht, jsOrZero],
        fun hh => by simp [mkPostEntry, parseTempHum, hform, hjson, hh, jsOrZero]⟩
  · intro hform hjson
    refine ⟨fun ht => ?_, fun hh => ?_⟩
    · simp [mkPostEntry, parseTempHum, hform, hjson, ht]
    · simp [mkPostEntry, parseTempHum, hform, hjson, hh]
  · rw [postData_state_of_not_throws r s hok]
    exact head?_pushCapped _ _

/-- Instance of `claim_C3_amended` at a JSON request with both fields
absent. -/
theorem claim_C3_amended_witness :
    (postData sampleJsonEmptyReq initialState).2.isOk = true
    ∧ ((strContains sampleJsonEmptyReq.contentTypeStr "application/x-www-form-urlencoded" = true
         ∨ strContains sampleJsonEmptyReq.contentTypeStr "application/json" = true) →
        ((parseFloatVal sampleJsonEmptyReq.body.tempField = JSNum.nan →
            (mkPostEntry sampleJsonEmptyReq).temperature = JSNum.num 0)
         ∧ (parseFloatVal sampleJsonEmptyReq.body.humField = JSNum.nan →
            (mkPostEntry sampleJsonEmptyReq).humidity = JSNum.num 0)))
    ∧ (strContains sampleJsonEmptyReq.contentTypeStr "application/x-www-form-urlencoded" = false →
       strContains sampleJsonEmptyReq.contentTypeStr "application/json" = false →
        ((keyNumMatch "temp" sampleJsonEmptyReq.body.toJSString = none →
            (mkPostEntry sampleJsonEmptyReq).temperature = JSNum.num 0)
         ∧ (keyNumMatch "hum" sampleJsonEmptyReq.body.toJSString = none →
            (mkPostEntry sampleJsonEmptyReq).humidity = JSNum.num 0)))
    ∧ (postData sampleJsonEmptyReq initialState).1.sensorData.head?
        = some (Entry.post (mkPostEntry sampleJsonEmptyReq)) :=
  claim_C3_amended sampleJsonEmptyReq initialState rfl

/-- C2: starting from any history of length at most 100, any sequence of
`POST /api/data` requests keeps the length at most 100; and after 105
non-throwing POSTs the history is exactly the entries of the last 100
requests, newest first, so its length is exactly 100. -/
theorem claim_C2 (s : ServerState) (hlen : s.sensorData.length ≤ 100)
    (reqs : List PostRequest) :
    (postManyState reqs s).sensorData.length ≤ 100
    ∧ (reqs.length = 105 → (∀ r ∈ reqs, r.throws = false) →
        (postManyState reqs s).sensorData
            = ((reqs.drop 5).map (fun r => Entry.post (mkPostEntry r))).reverse
        ∧ (postManyState reqs s).sensorData.length = 100) := by
  refine ⟨postManyState_length_le reqs s hlen, ?_⟩
  intro h105 hok
  have hsd := postManyState_sensorData reqs s hlen hok
  have hmaplen : (reqs.map (fun r => Entry.post (mkPostEntry r))).length = 105 := by
    rw [List.length_map, h105]
  have key : (postManyState reqs s).sensorData
      = ((reqs.drop 5).map (fun r => Entry.post (mkPostEntry r))).reverse := by
    rw [hsd, List.take_append_eq_append_take, List.length_reverse, hmaplen]
    have h0 : (100 : ℕ) - 105 = 0 := rfl
    rw [h0, List.take_zero, List.append_nil, List.take_reverse, hmaplen]
    have h5 : (105 : ℕ) - 100 = 5 := rfl
    rw [h5, List.map_drop]
  refine ⟨key, ?_⟩
  rw [key, List.length_reverse, List.length_map, List.length_drop, h105]

/-- Instance of `claim_C2`: 105 identical POSTs from the empty initial
state. -/
theorem claim_C2_witness :
    (postManyState (List.replicate 105 sampleFormReq) initialState).sensorData
        = (((List.replicate 105 sampleFormReq).drop 5).map
            (fun r => Entry.post (mkPostEntry r))).reverse
    ∧ (postManyState (List.replicate 105 sampleFormReq) initialState).sensorData.length = 100 :=
  (claim_C2 initialState (by decide) (List.replicate 105 sampleFormReq)).2
    (by simp) (fun r hr => by rw [List.eq_of_mem_replicate hr]; rfl)

/-- C1 fails as stated: `GET /api/simple` is a mutating operation that never
enforces the cap, so 101 such requests from the initial state leave the
history at length 101, violating the length-at-most-100 invariant. -/
theorem claim_C1_counterexample :
    ((fun st => (apiSimple { temp := none, hum := none, nowIso := "T" } st).1)^[101]
        initialState).sensorData.length = 101
    ∧ ¬ (((fun st => (apiSimple { temp := none, hum := none, nowIso := "T" } st).1)^[101]
        initialState).sensorData.length ≤ 100) := by
  refine ⟨by decide, by decide⟩

/-- C1 (amended): every insertion — by either write endpoint — puts the new
entry at the front of the history, and the `POST /api/data` path discards
the tail beyond 100 within the same operation, so its post-state history
never exceeds 100; but `GET /api/simple` performs no capacity enforcement
and always grows the history by one, so the invariant holds only for the
POST path. -/
theorem claim_C1_amended (r : PostRequest) (q : SimpleRequest) (s : ServerState)
    (hok : r.throws = false) :
    ((postData r s).1.sensorData.head? = some (Entry.post (mkPostEntry r))
      ∧ (postData r s).1.sensorData.length ≤ 100
      ∧ (postData r s).1.sensorData = (Entry.post (mkPostEntry r) :: s.sensorData).take 100)
    ∧ ((apiSimple q s).1.sensorData = Entry.simple (mkSimpleEntry q) :: s.sensorData
      ∧ (apiSimple q s).1.sensorData.length = s.sensorData.length + 1) := by
  refine ⟨⟨?_, ?_, ?_⟩, rfl, rfl⟩
  · rw [postData_state_of_not_throws r s hok]
    exact head?_pushCapped _ _
  · rw [postData_state_of_not_throws r s hok]
    exact length_pushCapped_le _ _
  · rw [postData_state_of_not_throws r s hok]
    exact pushCapped_eq_take _ _

/-- Instance of `claim_C1_amended` at concrete requests and a history holding
exactly 100 entries. -/
theorem claim_C1_amended_witness :
    ((postData sampleFormReq fullState).1.sensorData.head?
        = some (Entry.post (mkPostEntry sampleFormReq))
      ∧ (postData sampleFormReq fullState).1.sensorData.length ≤ 100
      ∧ (postData sampleFormReq fullState).1.sensorData
          = (Entry.post (mkPostEntry sampleFormReq) :: fullState.sensorData).take 100)
    ∧ ((apiSimple sampleSimpleReq fullState).1.sensorData
        = Entry.simple (mkSimpleEntry sampleSimpleReq) :: fullState.sensorData
      ∧ (apiSimple sampleSimpleReq fullState).1.sensorData.length
          = fullState.sensorData.length + 1) :=
  claim_C1_amended sampleFormReq sampleSimpleReq fullState rfl
